import Mathlib

/-!
Verification of the ai_mentor task-tree engine against its specification.

The JavaScript source is shallowly embedded: plain objects become
structures, Firestore `Timestamp` values become `Nat` (presence/absence of
a field becomes `Option`), JS arrays become `List`, and the tree
transformations inside the services become pure Lean functions.  JS
truthiness on strings is `s ≠ ""`; `Math.round` on a non-negative quotient
is `⌊x + 1/2⌋`, computed exactly on naturals.
-/

namespace AiMentor

/-- A sub-task as stored in the roadmap document: one nesting level deep,
so it carries no further sub-task list. -/
structure SubTask where
  id : String
  name : String
  completed : Bool
  completedAt : Option Nat
  deriving Repr, DecidableEq

/-- A task inside a phase; `subTasks` may be empty. -/
structure Task where
  id : String
  name : String
  completed : Bool
  completedAt : Option Nat
  subTasks : List SubTask
  deriving Repr, DecidableEq

/-- A phase of the roadmap. -/
structure Phase where
  id : String
  name : String
  description : String
  tasks : List Task
  deriving Repr, DecidableEq

/-- The roadmap tree (`projects/{projectId}.roadmap.phases`). -/
structure Roadmap where
  phases : List Phase
  deriving Repr, DecidableEq

/-! ## updateTaskStatus (roadmapService with sub-task support)

Embedding of the tree transformation inside `updateTaskStatus(projectId,
phaseId, taskId, completed, isSubTask, parentTaskId)`.  `Timestamp.now()`
is the parameter `now`. -/

/-- The sub-task map body: `subTasks.map(subTask => ...)`.  A non-matching
sub-task is returned unchanged; a matching one gets `completed` set, with
`completedAt` stamped when completing and deleted when un-completing. -/
def updateSubTaskJs (now : Nat) (taskId : String) (completed : Bool)
    (st : SubTask) : SubTask :=
  if st.id ≠ taskId then st
  else if completed then { st with completed := completed, completedAt := some now }
  else { st with completed := completed, completedAt := none }

/-- The `isSubTask` branch body for the parent task: update the sub-tasks,
then run the parent auto-complete rollup.  Faithful to the source: in the
`!allSubTasksCompleted && task.completed` branch only `completedAt` is
removed — `completed` is left at its old value `true`. -/
def updateParentTaskJs (now : Nat) (taskId : String) (completed : Bool)
    (task : Task) : Task :=
  let updatedSubTasks := task.subTasks.map (updateSubTaskJs now taskId completed)
  let allSubTasksCompleted := updatedSubTasks.all (·.completed)
  let updatedTask := { task with subTasks := updatedSubTasks }
  if allSubTasksCompleted ∧ ¬task.completed then
    { updatedTask with completed := true, completedAt := some now }
  else if ¬allSubTasksCompleted ∧ task.completed then
    { updatedTask with completedAt := none }
  else updatedTask

/-- JS truthiness of the `parentTaskId` argument combined with the
`task.id === parentTaskId` comparison. -/
def parentMatches (parentTaskId : Option String) (task : Task) : Bool :=
  match parentTaskId with
  | some p => p ≠ "" && task.id == p
  | none => false

/-- The `tasks.map(task => ...)` body: the `isSubTask` branch fires when
`isSubTask && parentTaskId && task.id === parentTaskId`; otherwise the
main-task branch fires when `task.id === taskId`. -/
def updateTaskJs (now : Nat) (taskId : String) (completed : Bool)
    (isSubTask : Bool) (parentTaskId : Option String) (task : Task) : Task :=
  if isSubTask && parentMatches parentTaskId task then
    updateParentTaskJs now taskId completed task
  else if task.id ≠ taskId then task
  else if completed then { task with completed := completed, completedAt := some now }
  else { task with completed := completed, completedAt := none }

/-- The `phases.map(phase => ...)` body. -/
def updatePhaseJs (now : Nat) (phaseId taskId : String) (completed : Bool)
    (isSubTask : Bool) (parentTaskId : Option String) (phase : Phase) : Phase :=
  if phase.id ≠ phaseId then phase
  else { phase with
          tasks := phase.tasks.map (updateTaskJs now taskId completed isSubTask parentTaskId) }

/-- The whole-tree transformation performed by `updateTaskStatus` before
the roadmap is written back. -/
def updateTaskStatus (now : Nat) (roadmap : Roadmap) (phaseId taskId : String)
    (completed : Bool) (isSubTask : Bool) (parentTaskId : Option String) : Roadmap :=
  { roadmap with
      phases := roadmap.phases.map
        (updatePhaseJs now phaseId taskId completed isSubTask parentTaskId) }

/-! ## ProgressView.calculateProgress

The counting loop increments `totalTasks` once per (main) task and once
per sub-task, and `completedTasks` for every counted item whose
`completed` flag is set.  `Math.round((completedTasks / totalTasks) *
100)` on a non-negative exact quotient is `⌊100·c/t + 1/2⌋`. -/

/-- Units `calculateProgress` counts for one task: the main task itself
plus each of its sub-tasks. -/
def taskUnits (t : Task) : Nat :=
  1 + t.subTasks.length

/-- Completed units `calculateProgress` counts for one task. -/
def taskCompletedUnits (t : Task) : Nat :=
  (if t.completed then 1 else 0) + (t.subTasks.filter (·.completed)).length

/-- `phaseTotal` accumulated for one phase of the per-phase loop. -/
def phaseTotal (ph : Phase) : Nat :=
  (ph.tasks.map taskUnits).sum

/-- `phaseCompleted` accumulated for one phase of the per-phase loop. -/
def phaseCompleted (ph : Phase) : Nat :=
  (ph.tasks.map taskCompletedUnits).sum

/-- `totalTasks` accumulated over all phases. -/
def totalTasks (r : Roadmap) : Nat :=
  (r.phases.map phaseTotal).sum

/-- `completedTasks` accumulated over all phases. -/
def completedTasks (r : Roadmap) : Nat :=
  (r.phases.map phaseCompleted).sum

/-- `Math.round((c / t) * 100)` for `0 ≤ c ≤ t`, `t > 0`, computed
exactly: `⌊(100·c + t/2) / t⌋ = (200·c + t) / (2·t)` in natural-number
division (round half away from zero, which for non-negatives matches
JS round half up). -/
def jsRound100 (c t : Nat) : Nat :=
  (200 * c + t) / (2 * t)

/-- `overall` as computed by `calculateProgress`: guarded against a zero
denominator. -/
def overallProgress (r : Roadmap) : Nat :=
  if totalTasks r > 0 then jsRound100 (completedTasks r) (totalTasks r) else 0

/-- Per-phase percentage of `calculateProgress`. -/
def phaseProgress (ph : Phase) : Nat :=
  if phaseTotal ph > 0 then jsRound100 (phaseCompleted ph) (phaseTotal ph) else 0

/-! ## Spec-side leaf counting (for comparison with the code)

Modelled from the spec's words, *not* the source: "a task with no
sub-tasks counts as 1 leaf; a task with sub-tasks does not itself count
as a leaf — only its sub-tasks do". -/

/-- Leaves of one task per the spec's counting rule. -/
def specTaskLeaves (t : Task) : Nat :=
  if t.subTasks.isEmpty then 1 else t.subTasks.length

/-- Completed leaves of one task per the spec's counting rule. -/
def specTaskCompletedLeaves (t : Task) : Nat :=
  if t.subTasks.isEmpty then (if t.completed then 1 else 0)
  else (t.subTasks.filter (·.completed)).length

/-- Total leaves of the tree per the spec's counting rule. -/
def specTotalLeaves (r : Roadmap) : Nat :=
  (r.phases.map (fun ph => (ph.tasks.map specTaskLeaves).sum)).sum

/-- Completed leaves of the tree per the spec's counting rule. -/
def specCompletedLeaves (r : Roadmap) : Nat :=
  (r.phases.map (fun ph => (ph.tasks.map specTaskCompletedLeaves).sum)).sum

/-- Number of tasks carrying a non-empty sub-task list. -/
def tasksWithSubCount (r : Roadmap) : Nat :=
  (r.phases.map (fun ph =>
    (ph.tasks.map (fun t => if t.subTasks.isEmpty then 0 else 1)).sum)).sum

/-- Number of tasks with a non-empty sub-task list whose own `completed`
flag is set. -/
def completedTasksWithSubCount (r : Roadmap) : Nat :=
  (r.phases.map (fun ph =>
    (ph.tasks.map (fun t =>
      if ¬t.subTasks.isEmpty ∧ t.completed then 1 else 0)).sum)).sum

/-! ## RoadmapView.getProgress

Counts only main tasks: `totalTasks = Σ phase.tasks.length`,
`completedTasks = Σ tasks.filter(completed).length`. -/

def getProgressTotal (r : Roadmap) : Nat :=
  (r.phases.map (fun ph => ph.tasks.length)).sum

def getProgressCompleted (r : Roadmap) : Nat :=
  (r.phases.map (fun ph => (ph.tasks.filter (·.completed)).length)).sum

def getProgress (r : Roadmap) : Nat :=
  if getProgressTotal r > 0 then
    jsRound100 (getProgressCompleted r) (getProgressTotal r)
  else 0

/-! ## RoadmapView.toggleTask — optimistic apply and rollback

The optimistic update maps the tree setting the matching task's
`completed` field to `newCompletedStatus` (nothing else is touched); the
catch-branch rollback runs the same map with `!newCompletedStatus`. -/

/-- The `setRoadmap(prev => ...)` map used for both the optimistic apply
and the rollback: set `completed := b` on every task with the given id
inside every phase with the given id. -/
def setTaskCompleted (phaseId taskId : String) (b : Bool) (r : Roadmap) : Roadmap :=
  { r with
      phases := r.phases.map fun ph =>
        if ph.id == phaseId then
          { ph with
              tasks := ph.tasks.map fun t =>
                if t.id == taskId then { t with completed := b } else t }
        else ph }

/-- The local tree after a `toggleTask(phaseId, taskId)` whose Firestore
write failed: find the task, flip to `!task.completed` optimistically,
then revert in the catch handler.  When the phase or task is not found,
`toggleTask` returns before mutating anything. -/
def toggleTaskFailed (r : Roadmap) (phaseId taskId : String) : Roadmap :=
  match r.phases.find? (·.id == phaseId) with
  | none => r
  | some ph =>
    match ph.tasks.find? (·.id == taskId) with
    | none => r
    | some t =>
      let newCompletedStatus := !t.completed
      setTaskCompleted phaseId taskId (!newCompletedStatus)
        (setTaskCompleted phaseId taskId newCompletedStatus r)

/-! ## geminiService.checkProjectDetails and the generation gate -/

/-- JS `String.prototype.trim()`: strip leading and trailing whitespace.
Implemented by structural recursion on the character list so that
concrete instances evaluate inside the kernel (Lean's `String.trim` uses
well-founded recursion and does not reduce definitionally). -/
def jsTrim (s : String) : String :=
  ⟨((s.data.dropWhile Char.isWhitespace).reverse.dropWhile Char.isWhitespace).reverse⟩

/-- The project fields the gate reads.  A JS field that is `undefined`,
`null` or otherwise absent is `none`; `techStack` coalesces to `[]`. -/
structure Project where
  description : Option String
  techStack : List String
  targetDate : Option String
  deriving Repr, DecidableEq

/-- `!projectData.description || projectData.description.trim() === ''`. -/
def descriptionMissing (p : Project) : Bool :=
  match p.description with
  | none => true
  | some d => d == "" || jsTrim d == ""

/-- `!projectData.techStack || projectData.techStack.length === 0`. -/
def techStackMissing (p : Project) : Bool :=
  p.techStack.isEmpty

/-- `!projectData.targetDate` (an empty string is falsy in JS). -/
def targetDateMissing (p : Project) : Bool :=
  match p.targetDate with
  | none => true
  | some d => d == ""

/-- Return value of `checkProjectDetails`. -/
structure DetailsCheck where
  hasAllDetails : Bool
  missingFields : List String
  deriving Repr, DecidableEq

/-- `checkProjectDetails(projectData)`: pushes a label per missing field
and reports `hasAllDetails = missingFields.length === 0`. -/
def checkProjectDetails (p : Project) : DetailsCheck :=
  let missingFields :=
    (if descriptionMissing p then ["description"] else []) ++
    (if techStackMissing p then ["tech stack"] else []) ++
    (if targetDateMissing p then ["timeline/target date"] else [])
  { hasAllDetails := missingFields.isEmpty, missingFields := missingFields }

/-- A chat message as delivered to the UI by `loadChatMessages`. -/
structure UiMessage where
  role : String
  content : String
  deriving Repr, DecidableEq

/-- `chatCount` in `RoadmapView`: `messages.filter(m => m?.role ===
'user').length`. -/
def countUserMessages (msgs : List UiMessage) : Nat :=
  (msgs.filter (·.role == "user")).length

/-- `canGenerateRoadmap()` in `RoadmapView`: `false` without a project,
otherwise `checkProjectDetails(project).hasAllDetails || hasChatHistory`
where `hasChatHistory = chatCount > 0`. -/
def canGenerateRoadmap (project : Option Project) (msgs : List UiMessage) : Bool :=
  match project with
  | none => false
  | some p => (checkProjectDetails p).hasAllDetails || decide (0 < countUserMessages msgs)

/-- Modelled from the spec's words (for comparison with the code):
`hasAllDetails = description present and non-blank AND techStack
non-empty AND targetDate present`, presence meaning a JS-truthy value. -/
def claimHasAllDetails (p : Project) : Bool :=
  (match p.description with
   | some d => !(jsTrim d == "")
   | none => false) &&
  !p.techStack.isEmpty &&
  (match p.targetDate with
   | some d => !(d == "")
   | none => false)

/-! ## ChatView bootstrap (ChatSyncEngine)

`loadChatMessages` delivers a snapshot of the message log to the
component's callback.  A non-empty snapshot replaces the local messages
and marks `initialMessageSent`; an empty snapshot triggers
`sendInitialMessage()` unless the component-state flag is already set.
`sendInitialMessage` sets the flag *before* awaiting the append and then
appends one assistant greeting (role `'ai'`) through `saveChatMessage`. -/

/-- `initialContent` composed by `sendInitialMessage`, branching on
`checkProjectDetails`. -/
def initialContent (p : Project) : String :=
  let detailsCheck := checkProjectDetails p
  let base := "Hello! I\x27m your AI Project Mentor. I\x27m here to help guide you through your project."
  if !detailsCheck.hasAllDetails then
    let s := base ++ "\n\nI notice some project details are missing: " ++
      String.intercalate ", " detailsCheck.missingFields ++
      ". Let me ask you a few questions to better understand your project."
    if detailsCheck.missingFields.contains "description" then
      s ++ "\n\nFirst, could you tell me more about your project? What is it about and what are its main goals?"
    else if detailsCheck.missingFields.contains "tech stack" then
      s ++ "\n\nWhat technologies or tech stack do you plan to use for this project?"
    else if detailsCheck.missingFields.contains "timeline/target date" then
      s ++ "\n\nWhat is your target completion date or timeline for this project?"
    else s
  else
    base ++ "\n\nI can see your project details are complete. Feel free to ask me anything about planning, development, or best practices!"

/-- The per-mount component state relevant to the bootstrap: the
`initialMessageSent` flag and the local `messages` list. -/
structure ChatClient where
  initialMessageSent : Bool
  messages : List UiMessage
  deriving Repr, DecidableEq

/-- One delivery of the `loadChatMessages` snapshot callback to one
mounted `ChatView`.  Returns the new component state together with the
list of messages the callback appends to the authoritative log (the
`saveChatMessage(projectId, 'ai', initialContent)` call issued by
`sendInitialMessage`). -/
def onChatSnapshot (p : Project) (client : ChatClient)
    (snapshot : List UiMessage) : ChatClient × List UiMessage :=
  if snapshot.length > 0 then
    ({ initialMessageSent := true, messages := snapshot }, [])
  else if !client.initialMessageSent then
    let content := initialContent p
    ({ initialMessageSent := true,
       messages := if client.messages.length = 0
         then [{ role := "assistant", content := content }]
         else client.messages },
     [{ role := "ai", content := content }])
  else
    (client, [])

/-- Sequential evolution of one mounted client against the authoritative
log: the snapshot it observes is the current log, and its appends land at
the end of the log. -/
def clientStep (p : Project) (st : ChatClient × List UiMessage) :
    ChatClient × List UiMessage :=
  let (c, log) := st
  let (c2, appended) := onChatSnapshot p c log
  (c2, log ++ appended)

/-! ## roadmapService.saveRoadmap -/

/-- The persisted roadmap document: phases plus provenance timestamps
(`Option` because a stored document may lack them). -/
structure StoredRoadmap where
  phases : List Phase
  createdAt : Option Nat
  updatedAt : Option Nat
  deriving Repr, DecidableEq

/-- The `roadmapData` value `saveRoadmap` writes: the supplied roadmap
spread first, then `updatedAt: serverTimestamp()` and `createdAt:
existingRoadmap?.createdAt || serverTimestamp()` overwrite those two
fields. -/
def saveRoadmapData (existing : Option StoredRoadmap) (roadmap : StoredRoadmap)
    (now : Nat) : StoredRoadmap :=
  { roadmap with
      updatedAt := some now
      createdAt :=
        match existing with
        | some ex =>
          match ex.createdAt with
          | some t => some t
          | none => some now
        | none => some now }

/-! ## chatService.saveChatMessage (part_011 variant, roles user/ai) -/

/-- The document `addDoc` writes for one chat message. -/
structure ChatWrite where
  role : String
  content : String
  createdAt : Nat
  deriving Repr, DecidableEq

/-- `saveChatMessage(projectId, role, content)`: validation happens in
source order (projectId truthy, role in the allowed set, trimmed content
truthy); a failing `addDoc` is caught and turned into `null`.  The result
is the returned document id (or `none`) paired with the document written
to the store (or `none`). -/
def saveChatMessage (projectId role content : String) (now : Nat)
    (writeOk : Bool) (newId : String) : Option String × Option ChatWrite :=
  if projectId == "" then (none, none)
  else if !(role == "user" || role == "ai") then (none, none)
  else if jsTrim content == "" then (none, none)
  else if writeOk then (some newId, some { role := role, content := jsTrim content, createdAt := now })
  else (none, none)

/-! ## Invariant A -/

/-- Invariant A on one sub-task: `completedAt` present iff `completed`. -/
def subTaskInvA (st : SubTask) : Bool :=
  st.completedAt.isSome == st.completed

/-- Invariant A on one task and its sub-tasks. -/
def taskInvA (t : Task) : Bool :=
  (t.completedAt.isSome == t.completed) && t.subTasks.all subTaskInvA

/-- Invariant A over the whole tree. -/
def invariantA (r : Roadmap) : Bool :=
  r.phases.all (fun ph => ph.tasks.all taskInvA)

/-! ## Concrete trees used as inputs -/

/-- A parent task with two completed sub-tasks, itself completed — the
state right after completing its last sub-task. -/
def parentBoth : Task :=
  { id := "t1", name := "build", completed := true, completedAt := some 5
    subTasks :=
      [ { id := "s1", name := "part one", completed := true, completedAt := some 3 }
      , { id := "s2", name := "part two", completed := true, completedAt := some 4 } ] }

/-- A one-phase roadmap holding `parentBoth`. -/
def R1 : Roadmap :=
  { phases := [ { id := "p1", name := "Phase 1", description := "d", tasks := [parentBoth] } ] }

/-- What `updateTaskStatus 10 R1 "p1" "s1" false (sub-task toggle)`
actually produces: `s1` un-completed, and the parent left with
`completed = true` but `completedAt` deleted. -/
def R1after : Roadmap :=
  { phases :=
      [ { id := "p1", name := "Phase 1", description := "d"
          tasks :=
            [ { id := "t1", name := "build", completed := true, completedAt := none
                subTasks :=
                  [ { id := "s1", name := "part one", completed := false, completedAt := none }
                  , { id := "s2", name := "part two", completed := true, completedAt := some 4 } ] } ] } ] }

/-- C1: un-completing sub-task `s1` of the fully-completed parent `t1`
does clear the parent's `completedAt`, but the code never assigns
`completed = false` in that branch (its own comment says "parent should
be incomplete"), so the parent's `completed` flag stays `true` — against
the claim that it becomes `false`. -/
theorem updateTaskStatus_subtask_untoggle_keeps_parent_completed :
    updateTaskStatus 10 R1 "p1" "s1" false true (some "t1") = R1after ∧
    ∃ ph ∈ R1after.phases, ∃ t ∈ ph.tasks,
      t.id = "t1" ∧ t.completed = true ∧ t.completedAt = none := by
  decide

/-- C3: the same toggle breaks Invariant A: `R1` satisfies it (every
`completedAt` present iff `completed`), but the result leaves the parent
with `completed = true` and `completedAt` absent. -/
theorem updateTaskStatus_breaks_invariantA :
    invariantA R1 = true ∧
    invariantA (updateTaskStatus 10 R1 "p1" "s1" false true (some "t1")) = false := by
  decide

/-! ## C2: how the code actually counts -/

/-- A completed parent task with one incomplete sub-task. -/
def parentHalf : Task :=
  { id := "t1", name := "build", completed := true, completedAt := some 2
    subTasks := [ { id := "s1", name := "part one", completed := false, completedAt := none } ] }

/-- A one-phase roadmap holding `parentHalf`. -/
def T0 : Roadmap :=
  { phases := [ { id := "p1", name := "Phase 1", description := "d", tasks := [parentHalf] } ] }

/-- C2 counterexample: on a tree with one task that has one (incomplete)
sub-task, the spec's leaf rule gives 1 leaf and 0 completed (overall 0),
but `calculateProgress` counts the parent as well (2 items, 1 completed,
overall 50) and `getProgress` counts only the parent (1 item, 1
completed, overall 100). -/
theorem leaf_counting_counterexample :
    specTotalLeaves T0 = 1 ∧ specCompletedLeaves T0 = 0 ∧
    totalTasks T0 = 2 ∧ completedTasks T0 = 1 ∧
    overallProgress T0 = 50 ∧ getProgress T0 = 100 := by
  decide

/-- Sum of all sub-task list lengths over the tree. -/
def subTaskCount (r : Roadmap) : Nat :=
  (r.phases.map (fun ph => (ph.tasks.map (fun t => t.subTasks.length)).sum)).sum

lemma taskUnits_split (t : Task) :
    taskUnits t = specTaskLeaves t + (if t.subTasks.isEmpty then 0 else 1) := by
  unfold taskUnits specTaskLeaves
  cases h : t.subTasks.isEmpty
  · simp [h, Nat.add_comm]
  · simp [h, List.isEmpty_iff.mp h]

lemma taskCompletedUnits_split (t : Task) :
    taskCompletedUnits t =
      specTaskCompletedLeaves t + (if ¬t.subTasks.isEmpty ∧ t.completed then 1 else 0) := by
  unfold taskCompletedUnits specTaskCompletedLeaves
  cases h : t.subTasks.isEmpty
  · cases hc : t.completed <;> simp [h, hc, Nat.add_comm]
  · cases hc : t.completed <;> simp [h, hc, List.isEmpty_iff.mp h]

lemma sum_map_split {α : Type} (l : List α) (f g h : α → Nat)
    (hfg : ∀ x ∈ l, f x = g x + h x) :
    (l.map f).sum = (l.map g).sum + (l.map h).sum := by
  induction l with
  | nil => simp
  | cons a l ih =>
    simp only [List.map_cons, List.sum_cons]
    rw [hfg a (List.mem_cons_self a l), ih (fun x hx => hfg x (List.mem_cons_of_mem a hx))]
    omega

/-- C2 amended: `calculateProgress` counts one item per task plus one per
sub-task — equivalently, the spec's leaf count plus one extra item for
every task that has sub-tasks (its derived parent flag is counted too) —
and `getProgress` counts only main tasks, ignoring sub-tasks. -/
theorem calculateProgress_counting (r : Roadmap) :
    totalTasks r = specTotalLeaves r + tasksWithSubCount r ∧
    completedTasks r = specCompletedLeaves r + completedTasksWithSubCount r ∧
    totalTasks r = getProgressTotal r + subTaskCount r := by
  refine ⟨?_, ?_, ?_⟩
  · unfold totalTasks specTotalLeaves tasksWithSubCount phaseTotal
    exact sum_map_split _ _ _ _ fun ph _ =>
      sum_map_split _ _ _ _ fun t _ => taskUnits_split t
  · unfold completedTasks specCompletedLeaves completedTasksWithSubCount phaseCompleted
    exact sum_map_split _ _ _ _ fun ph _ =>
      sum_map_split _ _ _ _ fun t _ => taskCompletedUnits_split t
  · unfold totalTasks getProgressTotal subTaskCount phaseTotal
    refine sum_map_split _ _ _ _ fun ph _ => ?_
    have hlen : ph.tasks.length = (ph.tasks.map (fun _ => 1)).sum := by
      induction ph.tasks with
      | nil => rfl
      | cons a l ih =>
        simp only [List.length_cons, List.map_cons, List.sum_cons]
        omega
    rw [hlen]
    exact sum_map_split _ _ _ _ fun t _ => rfl

/-! ## C4: range and rounding of the overall percentage -/

lemma taskCompletedUnits_le (t : Task) : taskCompletedUnits t ≤ taskUnits t := by
  unfold taskCompletedUnits taskUnits
  have hf := List.length_filter_le (·.completed) t.subTasks
  cases t.completed <;> simp <;> omega

lemma completedTasks_le (r : Roadmap) : completedTasks r ≤ totalTasks r := by
  unfold completedTasks totalTasks
  refine List.sum_le_sum fun ph _ => ?_
  unfold phaseCompleted phaseTotal
  exact List.sum_le_sum fun t _ => taskCompletedUnits_le t

lemma jsRound100_le (c t : Nat) (hct : c ≤ t) (ht : 0 < t) : jsRound100 c t ≤ 100 := by
  unfold jsRound100
  have h2t : 0 < 2 * t := by omega
  have : 200 * c + t < 101 * (2 * t) := by omega
  have := (Nat.div_lt_iff_lt_mul h2t).mpr this
  omega

lemma jsRound100_all (t : Nat) (ht : 0 < t) : jsRound100 t t = 100 := by
  have hle := jsRound100_le t t le_rfl ht
  have h2t : 0 < 2 * t := by omega
  have hge : 100 ≤ jsRound100 t t := by
    unfold jsRound100
    exact (Nat.le_div_iff_mul_le h2t).mpr (by omega)
  omega

lemma jsRound100_none (t : Nat) (ht : 0 < t) : jsRound100 0 t = 0 := by
  unfold jsRound100
  exact Nat.div_eq_of_lt (by omega)

/-- C4 amended: `overall` is `round(100·completed/total)` with the
zero-denominator guard and always lies in `[0,100]`; every counted item
completed forces `100` and none completed forces `0` — but rounding makes
the two converses fail (see the counterexample). -/
theorem overallProgress_amended (r : Roadmap) :
    overallProgress r =
      (if 0 < totalTasks r then jsRound100 (completedTasks r) (totalTasks r) else 0) ∧
    overallProgress r ≤ 100 ∧
    (totalTasks r = 0 → overallProgress r = 0) ∧
    (completedTasks r = totalTasks r → 0 < totalTasks r → overallProgress r = 100) ∧
    (completedTasks r = 0 → overallProgress r = 0) := by
  refine ⟨rfl, ?_, ?_, ?_, ?_⟩
  · unfold overallProgress
    by_cases h : 0 < totalTasks r
    · simp only [h, if_pos]
      exact jsRound100_le _ _ (completedTasks_le r) h
    · simp [h]
  · intro h
    unfold overallProgress
    simp [h]
  · intro hall hpos
    unfold overallProgress
    simp only [hpos, if_pos, hall]
    exact jsRound100_all _ hpos
  · intro hnone
    unfold overallProgress
    by_cases h : 0 < totalTasks r
    · simp only [h, if_pos, hnone]
      exact jsRound100_none _ h
    · simp [h]

/-- A completed leaf task. -/
def doneTask : Task :=
  { id := "d", name := "done", completed := true, completedAt := some 1, subTasks := [] }

/-- An uncompleted leaf task. -/
def todoTask : Task :=
  { id := "u", name := "todo", completed := false, completedAt := none, subTasks := [] }

/-- An empty roadmap (no phases, so no countable items). -/
def Rempty : Roadmap := { phases := [] }

/-- A roadmap whose single leaf task is completed. -/
def Rdone : Roadmap :=
  { phases := [ { id := "p", name := "P", description := "", tasks := [doneTask] } ] }

/-- 256 leaf tasks, 255 of them completed.  255/256 and its product with
100 are dyadic rationals, so the JS floating-point computation of
`(completed/total)*100` is exact here (99.609375) and rounds to 100. -/
def Ralmost : Roadmap :=
  { phases := [ { id := "p", name := "P", description := ""
                  tasks := List.replicate 255 doneTask ++ [todoTask] } ] }

/-- 256 leaf tasks, exactly one completed: 100/256 = 0.390625 exactly,
which rounds to 0. -/
def Rbarely : Roadmap :=
  { phases := [ { id := "p", name := "P", description := ""
                  tasks := List.replicate 255 todoTask ++ [doneTask] } ] }

set_option maxRecDepth 4000 in
/-- C4 counterexample: the claimed equivalences "overall = 100 iff every
leaf completed" and "overall = 0 iff none completed" fail: 255 of 256
completed already rounds to 100, and 1 of 256 completed still rounds
to 0. -/
theorem overallProgress_round_counterexample :
    overallProgress Ralmost = 100 ∧ completedTasks Ralmost ≠ totalTasks Ralmost ∧
    overallProgress Rbarely = 0 ∧ completedTasks Rbarely ≠ 0 := by
  decide

/-- Closed instantiation of `overallProgress_amended`: the empty tree
yields 0 and an all-completed tree yields 100. -/
theorem overallProgress_amended_witness :
    overallProgress Rempty = 0 ∧ overallProgress Rdone = 100 :=
  ⟨(overallProgress_amended Rempty).2.2.1 (by decide),
   (overallProgress_amended Rdone).2.2.2.1 (by decide) (by decide)⟩

/-! ## C5: unknown ids -/

lemma map_eq_self_of_eq {α : Type} (l : List α) (f : α → α)
    (h : ∀ a ∈ l, f a = a) : l.map f = l := by
  induction l with
  | nil => rfl
  | cons a l ih =>
    simp only [List.map_cons]
    rw [h a (List.mem_cons_self a l), ih (fun x hx => h x (List.mem_cons_of_mem a hx))]

/-- C5 amended: the toggle is a no-op when the phase id matches no phase;
when it is a main-task toggle whose task id matches no task; and when it
is a sub-task toggle whose `parentTaskId` matches no task and whose
(sub-)task id matches no main task either.  (A sub-task toggle whose
parent exists is *not* a no-op even for an unknown sub-task id: the
parent rollup still runs — see the counterexample.)  The transformation
is a total function, so it never throws. -/
theorem updateTaskStatus_unknown_ids :
    (∀ now r phaseId taskId completed isSubTask parentTaskId,
      (∀ ph ∈ r.phases, ph.id ≠ phaseId) →
      updateTaskStatus now r phaseId taskId completed isSubTask parentTaskId = r) ∧
    (∀ now r phaseId taskId completed parentTaskId,
      (∀ ph ∈ r.phases, ∀ t ∈ ph.tasks, t.id ≠ taskId) →
      updateTaskStatus now r phaseId taskId completed false parentTaskId = r) ∧
    (∀ now r phaseId taskId completed parentTaskId,
      (∀ ph ∈ r.phases, ∀ t ∈ ph.tasks,
        parentMatches parentTaskId t = false ∧ t.id ≠ taskId) →
      updateTaskStatus now r phaseId taskId completed true parentTaskId = r) := by
  refine ⟨?_, ?_, ?_⟩
  · intro now r phaseId taskId completed isSubTask parentTaskId h
    unfold updateTaskStatus
    rw [map_eq_self_of_eq _ _ fun ph hph => by
      simp [updatePhaseJs, h ph hph]]
  · intro now r phaseId taskId completed parentTaskId h
    unfold updateTaskStatus
    rw [map_eq_self_of_eq _ _ fun ph hph => ?_]
    unfold updatePhaseJs
    by_cases hid : ph.id = phaseId
    · rw [if_neg (not_not_intro hid)]
      rw [map_eq_self_of_eq _ _ fun t ht => by
        simp [updateTaskJs, h ph hph t ht]]
    · simp [hid]
  · intro now r phaseId taskId completed parentTaskId h
    unfold updateTaskStatus
    rw [map_eq_self_of_eq _ _ fun ph hph => ?_]
    unfold updatePhaseJs
    by_cases hid : ph.id = phaseId
    · rw [if_neg (not_not_intro hid)]
      rw [map_eq_self_of_eq _ _ fun t ht => by
        simp [updateTaskJs, (h ph hph t ht).1, (h ph hph t ht).2]]
    · simp [hid]

/-- A task with an *empty* sub-task list, not completed. -/
def bareTask : Task :=
  { id := "t1", name := "lone", completed := false, completedAt := none, subTasks := [] }

/-- A one-phase roadmap holding `bareTask`; satisfies Invariants A and B. -/
def E0 : Roadmap :=
  { phases := [ { id := "p1", name := "Phase 1", description := "d", tasks := [bareTask] } ] }

/-- What the unknown-sub-task toggle below actually produces. -/
def E0after : Roadmap :=
  { phases := [ { id := "p1", name := "Phase 1", description := "d"
                  tasks := [ { id := "t1", name := "lone", completed := true
                               completedAt := some 7, subTasks := [] } ] } ] }

/-- C5 counterexample: a sub-task toggle naming the existing parent `t1`
but a sub-task id `zz` that occurs nowhere in the tree is *not* a no-op:
`every` over the (empty) sub-task list is vacuously true, so the rollup
marks the parent completed and stamps `completedAt`, even though the
toggle request asked to *un*-complete. -/
theorem updateTaskStatus_unknown_subtask_not_noop :
    updateTaskStatus 7 E0 "p1" "zz" false true (some "t1") = E0after ∧ E0after ≠ E0 := by
  decide

/-- Closed instantiation of `updateTaskStatus_unknown_ids` at concrete
unknown ids. -/
theorem updateTaskStatus_unknown_ids_witness :
    updateTaskStatus 3 R1 "nope" "t1" true false none = R1 ∧
    updateTaskStatus 3 R1 "p1" "nope" true false none = R1 ∧
    updateTaskStatus 3 R1 "p1" "nope" false true (some "ghost") = R1 :=
  ⟨updateTaskStatus_unknown_ids.1 3 R1 "nope" "t1" true false none (by decide),
   updateTaskStatus_unknown_ids.2.1 3 R1 "p1" "nope" true none (by decide),
   updateTaskStatus_unknown_ids.2.2 3 R1 "p1" "nope" false (some "ghost") (by decide)⟩

/-! ## C6: optimistic apply then rollback -/

lemma task_set_completed_self (t : Task) (c : Bool) (h : t.completed = c) :
    ({ t with completed := c } : Task) = t := by
  cases t
  cases h
  rfl

lemma setTaskCompleted_twice (phaseId taskId : String) (v1 v2 : Bool) (r : Roadmap) :
    setTaskCompleted phaseId taskId v2 (setTaskCompleted phaseId taskId v1 r) =
      setTaskCompleted phaseId taskId v2 r := by
  unfold setTaskCompleted
  simp only [List.map_map]
  refine congrArg _ (List.map_congr_left fun ph _ => ?_)
  by_cases hph : (ph.id == phaseId) = true
  · simp only [Function.comp_apply, if_pos hph, List.map_map]
    refine congrArg _ (List.map_congr_left fun t _ => ?_)
    by_cases ht : (t.id == taskId) = true
    · simp only [Function.comp_apply, if_pos ht]
    · simp only [Function.comp_apply, if_neg ht]
  · simp only [Function.comp_apply, if_neg hph]

lemma setTaskCompleted_eq_self (r : Roadmap) (phaseId taskId : String) (c : Bool)
    (h : ∀ ph ∈ r.phases, ph.id = phaseId → ∀ t ∈ ph.tasks, t.id = taskId →
      t.completed = c) :
    setTaskCompleted phaseId taskId c r = r := by
  unfold setTaskCompleted
  have hphases :
      r.phases.map (fun ph =>
        if ph.id == phaseId then
          { ph with
              tasks := ph.tasks.map fun t =>
                if t.id == taskId then { t with completed := c } else t }
        else ph) = r.phases := by
    apply map_eq_self_of_eq
    intro ph hph
    by_cases hid : ph.id = phaseId
    · rw [if_pos (by simp [hid])]
      have htasks :
          ph.tasks.map (fun t =>
            if t.id == taskId then { t with completed := c } else t) = ph.tasks := by
        apply map_eq_self_of_eq
        intro t ht
        by_cases htid : t.id = taskId
        · rw [if_pos (by simp [htid])]
          exact task_set_completed_self t c (h ph hph hid t ht htid)
        · rw [if_neg (by simp [htid])]
      rw [htasks]
    · rw [if_neg (by simp [hid])]
  rw [hphases]

/-- C6: when the Firestore write inside `toggleTask` fails, the
catch-branch rollback (re-apply the map with the negated status) restores
the component tree to exactly the value it held before the toggle,
provided every task matching the toggled (phaseId, taskId) pair agrees on
its `completed` flag — in particular whenever ids are unique (Invariant
C). -/
theorem toggleTask_rollback (r : Roadmap) (phaseId taskId : String) (c : Bool)
    (h : ∀ ph ∈ r.phases, ph.id = phaseId → ∀ t ∈ ph.tasks, t.id = taskId →
      t.completed = c) :
    toggleTaskFailed r phaseId taskId = r := by
  unfold toggleTaskFailed
  cases hf : r.phases.find? (·.id == phaseId) with
  | none => rfl
  | some ph =>
    cases hft : ph.tasks.find? (·.id == taskId) with
    | none => simp only [hft]
    | some t =>
      have hmemph : ph ∈ r.phases := List.mem_of_find?_eq_some hf
      have hid : ph.id = phaseId := by
        have := List.find?_some hf
        simpa using this
      have hmemt : t ∈ ph.tasks := List.mem_of_find?_eq_some hft
      have htid : t.id = taskId := by
        have := List.find?_some hft
        simpa using this
      have hc : t.completed = c := h ph hmemph hid t hmemt htid
      simp only [hft]
      rw [setTaskCompleted_twice, Bool.not_not, hc]
      exact setTaskCompleted_eq_self r phaseId taskId c h

/-- Closed instantiation of `toggleTask_rollback` on `R1`. -/
theorem toggleTask_rollback_witness : toggleTaskFailed R1 "p1" "t1" = R1 :=
  toggleTask_rollback R1 "p1" "t1" true (by decide)

/-! ## C7: bootstrap greeting, guard scope and the two-mount race -/

/-- A project with no description, empty tech stack and no target date. -/
def emptyProject : Project :=
  { description := none, techStack := [], targetDate := none }

/-- Authoritative log produced when two independently mounted `ChatView`
instances for the same project each receive the empty first snapshot
before either append is delivered: each instance holds its *own*
`initialMessageSent` component state, so each bootstraps. -/
def raceLog : List UiMessage :=
  let r1 := onChatSnapshot emptyProject { initialMessageSent := false, messages := [] } []
  let r2 := onChatSnapshot emptyProject { initialMessageSent := false, messages := [] } []
  ([] ++ r1.2) ++ r2.2

/-- C7 counterexample: the one-shot flag is `useState` component state,
scoped per mount and not per project-session, so the two-mount race
appends the greeting twice. -/
theorem bootstrap_race_appends_twice :
    raceLog =
      [ { role := "ai", content := initialContent emptyProject }
      , { role := "ai", content := initialContent emptyProject } ] ∧
    raceLog.length = 2 :=
  ⟨rfl, rfl⟩

lemma onChatSnapshot_flag (p : Project) (c : ChatClient) (s : List UiMessage) :
    (onChatSnapshot p c s).1.initialMessageSent = true := by
  unfold onChatSnapshot
  by_cases h1 : s.length > 0
  · simp [h1]
  · by_cases h2 : c.initialMessageSent <;> simp [h1, h2]

lemma clientStep_stable (p : Project) (c : ChatClient) (log : List UiMessage)
    (h : c.initialMessageSent = true) :
    clientStep p (c, log) = ((onChatSnapshot p c log).1, log) := by
  unfold clientStep onChatSnapshot
  by_cases h1 : log.length > 0
  · simp [h1]
  · simp [h1, h]

lemma iterate_stable (p : Project) :
    ∀ (m : Nat) (c : ChatClient) (log : List UiMessage),
      c.initialMessageSent = true →
      ((clientStep p)^[m] (c, log)).2 = log ∧
      ((clientStep p)^[m] (c, log)).1.initialMessageSent = true := by
  intro m
  induction m with
  | zero => intro c log h; exact ⟨rfl, h⟩
  | succ m ih =>
    intro c log h
    rw [Function.iterate_succ_apply, clientStep_stable p c log h]
    exact ih _ log (onChatSnapshot_flag p c log)

/-- C7 amended: the guard is mount-scoped.  Within a single mounted
instance, however many snapshot deliveries occur, at most one greeting is
ever appended (the flag is set together with issuing the append, before
it resolves), and after the first delivery the flag is set; a fresh
concurrent mount has its own flag, which is what duplicates the greeting
in the race counterexample. -/
theorem chat_bootstrap_once_per_mount (p : Project) (c : ChatClient)
    (log : List UiMessage) (n : Nat) (hn : 1 ≤ n) :
    (((clientStep p)^[n] (c, log)).2 = log ∨
      ((clientStep p)^[n] (c, log)).2 =
        log ++ [{ role := "ai", content := initialContent p }]) ∧
    ((clientStep p)^[n] (c, log)).1.initialMessageSent = true := by
  obtain ⟨m, rfl⟩ : ∃ m, n = m + 1 := ⟨n - 1, by omega⟩
  rw [Function.iterate_succ_apply]
  by_cases h1 : log.length > 0
  · have hstep : clientStep p (c, log) = ({ initialMessageSent := true, messages := log }, log) := by
      unfold clientStep onChatSnapshot
      simp [h1]
    rw [hstep]
    have hs := iterate_stable p m { initialMessageSent := true, messages := log } log rfl
    exact ⟨Or.inl hs.1, hs.2⟩
  · by_cases h2 : c.initialMessageSent
    · have hstep : clientStep p (c, log) = (c, log) := by
        unfold clientStep onChatSnapshot
        simp [h1, h2]
      rw [hstep]
      have hs := iterate_stable p m c log h2
      exact ⟨Or.inl hs.1, hs.2⟩
    · have hstep : clientStep p (c, log) =
          ({ initialMessageSent := true
             messages := if c.messages.length = 0
               then [{ role := "assistant", content := initialContent p }]
               else c.messages },
           log ++ [{ role := "ai", content := initialContent p }]) := by
        unfold clientStep onChatSnapshot
        simp [h1, h2]
      rw [hstep]
      have hs := iterate_stable p m
        { initialMessageSent := true
          messages := if c.messages.length = 0
            then [{ role := "assistant", content := initialContent p }]
            else c.messages }
        (log ++ [{ role := "ai", content := initialContent p }]) rfl
      exact ⟨Or.inr hs.1, hs.2⟩

/-- Closed instantiation of `chat_bootstrap_once_per_mount`: one mount
observing the empty log three times appends at most one greeting. -/
theorem chat_bootstrap_once_per_mount_witness :
    (((clientStep emptyProject)^[3] ({ initialMessageSent := false, messages := [] }, [])).2 = ([] : List UiMessage) ∨
      ((clientStep emptyProject)^[3] ({ initialMessageSent := false, messages := [] }, [])).2 =
        [] ++ [{ role := "ai", content := initialContent emptyProject }]) ∧
    ((clientStep emptyProject)^[3] ({ initialMessageSent := false, messages := [] }, [])).1.initialMessageSent = true :=
  chat_bootstrap_once_per_mount emptyProject { initialMessageSent := false, messages := [] } [] 3 (by omega)

/-! ## C8: the generation gate -/

lemma checkHasAllDetails_eq (p : Project) :
    (checkProjectDetails p).hasAllDetails =
      (!descriptionMissing p && !techStackMissing p && !targetDateMissing p) := by
  unfold checkProjectDetails
  cases h1 : descriptionMissing p <;> cases h2 : techStackMissing p <;>
    cases h3 : targetDateMissing p <;> simp

lemma claimHasAllDetails_eq (p : Project) :
    claimHasAllDetails p =
      (!descriptionMissing p && !techStackMissing p && !targetDateMissing p) := by
  unfold claimHasAllDetails descriptionMissing techStackMissing targetDateMissing
  cases hdesc : p.description with
  | none => simp
  | some d =>
    cases hdate : p.targetDate with
    | none => simp
    | some g =>
      by_cases hd : d = ""
      · subst hd
        rfl
      · have hb : (d == "") = false := by simp [hd]
        simp [hb]

/-- C8: `hasAllDetails` computed by `checkProjectDetails` through the
`missingFields` list agrees with the claimed conjunction (description
present and non-blank, techStack non-empty, targetDate present), the gate
is exactly `hasAllDetails OR user-message count > 0`, and on a project
with all three fields missing the gate flips from false to true when one
user message is appended. -/
theorem canGenerate_gate :
    (∀ p, (checkProjectDetails p).hasAllDetails = claimHasAllDetails p) ∧
    (∀ p msgs, canGenerateRoadmap (some p) msgs =
      ((checkProjectDetails p).hasAllDetails || decide (0 < countUserMessages msgs))) ∧
    canGenerateRoadmap (some emptyProject) [] = false ∧
    canGenerateRoadmap (some emptyProject) [{ role := "user", content := "hi" }] = true := by
  refine ⟨?_, fun p msgs => rfl, by decide, by decide⟩
  intro p
  rw [checkHasAllDetails_eq, claimHasAllDetails_eq]

/-! ## C9: saveRoadmap provenance -/

/-- C9: `saveRoadmap` always stamps a fresh `updatedAt`, writes the
supplied phases through unchanged, keeps the existing roadmap's
`createdAt` when one is present, and stamps a fresh `createdAt`
otherwise. -/
theorem saveRoadmap_provenance (ex : Option StoredRoadmap) (rm : StoredRoadmap)
    (now t : Nat) :
    (saveRoadmapData ex rm now).updatedAt = some now ∧
    (saveRoadmapData ex rm now).phases = rm.phases ∧
    (∀ exr, ex = some exr → exr.createdAt = some t →
      (saveRoadmapData ex rm now).createdAt = some t) ∧
    (ex = none → (saveRoadmapData ex rm now).createdAt = some now) := by
  refine ⟨rfl, rfl, ?_, ?_⟩
  · intro exr hex hc
    subst hex
    unfold saveRoadmapData
    simp [hc]
  · intro hex
    subst hex
    rfl

/-- Closed instantiation of `saveRoadmap_provenance`: regeneration over
an existing roadmap (createdAt 4) at time 9 keeps createdAt 4, and a
first save stamps 9. -/
theorem saveRoadmap_provenance_witness :
    (saveRoadmapData (some { phases := [], createdAt := some 4, updatedAt := some 5 })
      { phases := [], createdAt := none, updatedAt := none } 9).createdAt = some 4 ∧
    (saveRoadmapData none
      { phases := [], createdAt := none, updatedAt := none } 9).createdAt = some 9 :=
  ⟨(saveRoadmap_provenance (some { phases := [], createdAt := some 4, updatedAt := some 5 })
      { phases := [], createdAt := none, updatedAt := none } 9 4).2.2.1 _ rfl rfl,
   (saveRoadmap_provenance none
      { phases := [], createdAt := none, updatedAt := none } 9 4).2.2.2 rfl⟩

/-! ## C10: saveChatMessage -/

/-- C10: `saveChatMessage` returns `null` and writes nothing for a falsy
project id, a role outside the allowed set, blank content, or a failed
store write; on the happy path it writes the trimmed content and returns
the new document id.  The embedding is a total function: every failure is
absorbed into the `none` result, never an exception. -/
theorem saveChatMessage_contract (pid role content : String) (now : Nat)
    (ok : Bool) (newId : String) :
    (pid = "" → saveChatMessage pid role content now ok newId = (none, none)) ∧
    (role ≠ "user" ∧ role ≠ "ai" →
      saveChatMessage pid role content now ok newId = (none, none)) ∧
    (jsTrim content = "" → saveChatMessage pid role content now ok newId = (none, none)) ∧
    (ok = false → saveChatMessage pid role content now ok newId = (none, none)) ∧
    (pid ≠ "" → (role = "user" ∨ role = "ai") → jsTrim content ≠ "" → ok = true →
      saveChatMessage pid role content now ok newId =
        (some newId, some { role := role, content := jsTrim content, createdAt := now })) := by
  refine ⟨?_, ?_, ?_, ?_, ?_⟩
  · intro h
    simp [saveChatMessage, h]
  · intro h
    by_cases hp : pid = ""
    · simp [saveChatMessage, hp]
    · simp [saveChatMessage, hp, h.1, h.2]
  · intro h
    by_cases hp : pid = ""
    · simp [saveChatMessage, hp]
    · by_cases hr : (role == "user" || role == "ai") = true
      · simp [saveChatMessage, hp, hr, h]
      · simp [saveChatMessage, hp, hr]
  · intro h
    subst h
    by_cases hp : pid = ""
    · simp [saveChatMessage, hp]
    · by_cases hr : (role == "user" || role == "ai") = true
      · by_cases hc : jsTrim content = ""
        · simp [saveChatMessage, hp, hr, hc]
        · simp [saveChatMessage, hp, hr, hc]
      · simp [saveChatMessage, hp, hr]
  · intro hp hr hc hok
    subst hok
    rcases hr with h | h <;> subst h <;> simp [saveChatMessage, hp, hc]

/-- Closed instantiation of `saveChatMessage_contract`: a valid append
stores the trimmed content and returns the id; a blank content and a
failed write both return `null` and write nothing. -/
theorem saveChatMessage_contract_witness :
    saveChatMessage "proj" "user" "  hi  " 5 true "m1" =
      (some "m1", some { role := "user", content := "hi", createdAt := 5 }) ∧
    saveChatMessage "proj" "user" "   " 5 true "m1" = (none, none) ∧
    saveChatMessage "proj" "ai" "hi" 5 false "m1" = (none, none) :=
  ⟨by
    have h := (saveChatMessage_contract "proj" "user" "  hi  " 5 true "m1").2.2.2.2
      (by decide) (Or.inl rfl) (by decide) rfl
    simpa using h,
   (saveChatMessage_contract "proj" "user" "   " 5 true "m1").2.2.1 (by decide),
   (saveChatMessage_contract "proj" "ai" "hi" 5 false "m1").2.2.2.1 rfl⟩

end AiMentor
